import Mathlib

/-!
# Artha-Network core-domain: shallow embedding and verification

This file embeds the pure domain logic of the `core-domain` repository in
Lean 4 and proves properties of it:

* `src/deal.ts` (seven-state variant): `allowedTransitions`, `validateDeal`,
  `applyStatus`, `isWithinDisputeWindow` over the escrow deal lifecycle.
* `src/deal.ts` (five-state variant): the throwing `applyStatus` updater.
* `src/fees.ts`: `calculatePayouts` (fee clamp + affiliate carve-out).
* the 3-way payout calculator `computePayouts` (release / refund / split).

Modelling conventions:

* JavaScript `bigint` values and integer-valued `number`s are embedded as
  `Int`.  `bigint` division truncates toward zero, hence `Int.tdiv`.
* ISO-8601 timestamp strings are consumed by the source exclusively through
  `Date.parse`, so a timestamp string is embedded by its parse result:
  `some t` for a string parsing to epoch-milliseconds `t`, `none` for a
  string on which `Date.parse` yields `NaN`.
* A thrown JavaScript exception is embedded as the `thrown` constructor of
  `JsOutcome`; a normal return is `ret`.  The `Result` type mirrors the
  source's tagged `{ ok: true, value } | { ok: false, error }` union.
* JS `String.prototype.trim` / `toLowerCase` are embedded as list-based
  functions on the character data.
-/

namespace ArthaCore

/-- Embedding of a JS timestamp string by its `Date.parse` image:
`some t` = parses to epoch milliseconds `t`; `none` = `NaN` (unparseable). -/
abbrev JsTimestamp := Option Int

/-- JS `String.prototype.trim`: strip leading and trailing whitespace. -/
def jsTrim (s : String) : String :=
  ⟨((s.data.dropWhile Char.isWhitespace).reverse.dropWhile Char.isWhitespace).reverse⟩

/-- JS `String.prototype.toLowerCase` (ASCII, enough for status names). -/
def jsToLower (s : String) : String :=
  ⟨s.data.map Char.toLower⟩

/-- Outcome of calling a JS function that may `throw`:
`ret` is a normal return, `thrown` an uncaught exception. -/
inductive JsOutcome (ε α : Type) where
  | ret (value : α)
  | thrown (error : ε)
deriving DecidableEq, Repr

/-- `true` iff the call returned normally (did not throw). -/
def JsOutcome.isRet {ε α : Type} : JsOutcome ε α → Bool
  | .ret _ => true
  | .thrown _ => false

/-! ## Seven-state deal lifecycle (`src/deal.ts`, fuller variant) -/

/-- `DealStatus` union from the seven-state `deal.ts`:
`'INIT' | 'FUNDED' | 'DELIVERED' | 'DISPUTED' | 'RELEASED' | 'REFUNDED' | 'RESOLVED'`. -/
inductive DealStatus where
  | INIT
  | FUNDED
  | DELIVERED
  | DISPUTED
  | RELEASED
  | REFUNDED
  | RESOLVED
deriving DecidableEq, Repr

/-- The string a `DealStatus` value denotes in the source. -/
def statusStr : DealStatus → String
  | .INIT => "INIT"
  | .FUNDED => "FUNDED"
  | .DELIVERED => "DELIVERED"
  | .DISPUTED => "DISPUTED"
  | .RELEASED => "RELEASED"
  | .REFUNDED => "REFUNDED"
  | .RESOLVED => "RESOLVED"

/-- Stable error codes used by the seven-state `deal.ts`
(`DomainError['code']`). -/
inductive ErrorCode where
  | E_DEAL_INVALID
  | E_TRANSITION_BLOCKED
  | E_TIME_WINDOW
deriving DecidableEq, Repr

/-- `DomainError`: stable code plus human-readable message. -/
structure DomainError where
  code : ErrorCode
  message : String
deriving DecidableEq, Repr

/-- `type Result<T, E> = { ok: true; value: T } | { ok: false; error: E }`. -/
inductive Result (T E : Type) where
  | ok (value : T)
  | err (error : E)
deriving DecidableEq, Repr

/-- The `ok` discriminant of a `Result`. -/
def Result.isOk {T E : Type} : Result T E → Bool
  | .ok _ => true
  | .err _ => false

/-- Error code carried by a failed `Result`, if any. -/
def Result.errCode {T : Type} : Result T DomainError → Option ErrorCode
  | .ok _ => none
  | .err e => some e.code

/-- `ok` helper of `deal.ts`. -/
def ok {T : Type} (value : T) : Result T DomainError := .ok value

/-- `err` helper of `deal.ts`. -/
def err {T : Type} (code : ErrorCode) (message : String) : Result T DomainError :=
  .err ⟨code, message⟩

/-- The `Deal` record consumed by the seven-state `deal.ts`
(fields as used by `validateDeal` / `applyStatus`; monetary fields are
`UsdCents`, i.e. integers; `deliveryDeadline` is a timestamp string embedded
by its parse result; optional fields are `Option`). -/
structure Deal where
  dealId : String
  seller : String
  buyer : Option String
  priceUsd : Int
  fundedPriceUsd : Option Int
  deliveryDeadline : JsTimestamp
  disputeWindowSecs : Int
  status : DealStatus
  evidenceCids : Option (List String)
deriving DecidableEq, Repr

/-- `isNonEmptyId`: a string that is non-empty after trimming.
(The `typeof x === 'string'` part holds by construction in the embedding.) -/
def isNonEmptyId (x : String) : Bool :=
  (jsTrim x).length > 0

/-- `isNonEmptyString` — same check as `isNonEmptyId` in the source. -/
def isNonEmptyString (x : String) : Bool :=
  (jsTrim x).length > 0

/-- `isUsdCents`: `Number.isInteger(x) && typeof x === 'number'` — true by
construction, since the embedding types monetary fields as `Int`. -/
def isUsdCents (_x : Int) : Bool := true

/-- `isIso`: `Number.isFinite(Date.parse(x))` — in the embedding, the
timestamp parses iff it is `some _`. -/
def isIso (x : JsTimestamp) : Bool := x.isSome

/-- `allowedTransitions` from the seven-state `deal.ts`: which statuses are
reachable from a given current status. -/
def allowedTransitions : DealStatus → List DealStatus
  | .INIT => [.FUNDED]
  | .FUNDED => [.DELIVERED, .DISPUTED]
  | .DELIVERED => [.RELEASED, .DISPUTED]
  | .DISPUTED => [.RESOLVED]
  | .RELEASED => []
  | .REFUNDED => []
  | .RESOLVED => []

/-- The `d.fundedPriceUsd !== undefined && (!isUsdCents(..) || .. <= 0)`
guard of `validateDeal`, as a validity check on the optional field. -/
def fundedPriceInvalid : Option Int → Bool
  | none => false
  | some f => !isUsdCents f || decide (f ≤ 0)

/-- The per-element loop of `validateDeal` over `evidenceCids`: fails iff
some present cid is empty after trimming. -/
def someCidEmpty : Option (List String) → Bool
  | none => false
  | some cids => cids.any (fun c => !isNonEmptyString c)

/-- The `new Set(cids).size !== cids.length` duplicate check of
`validateDeal` (set size = number of distinct elements). -/
def cidsDuplicated : Option (List String) → Bool
  | none => false
  | some cids => decide (cids.dedup.length ≠ cids.length)

/-- The `d.fundedPriceUsd !== undefined && d.fundedPriceUsd !== d.priceUsd`
part of the baseline-policy check. -/
def fundedMismatch : Option Int → Int → Bool
  | none, _ => false
  | some f, p => decide (f ≠ p)

/-- `validateDeal` from the seven-state `deal.ts`: structural invariants,
checked in source order, fail-fast on the first violation. -/
def validateDeal (d : Deal) : Result Deal DomainError :=
  if !isNonEmptyId d.dealId then err .E_DEAL_INVALID "Missing or empty dealId"
  else if !isNonEmptyId d.seller then err .E_DEAL_INVALID "Missing or empty seller"
  else if !isUsdCents d.priceUsd || decide (d.priceUsd ≤ 0) then
    err .E_DEAL_INVALID "priceUsd must be positive cents"
  else if fundedPriceInvalid d.fundedPriceUsd then
    err .E_DEAL_INVALID "fundedPriceUsd must be positive cents when present"
  else if !isIso d.deliveryDeadline then
    err .E_DEAL_INVALID "deliveryDeadline must be ISO string"
  else if decide (d.disputeWindowSecs ≤ 0) then
    err .E_DEAL_INVALID "disputeWindowSecs must be > 0"
  else if someCidEmpty d.evidenceCids then
    err .E_DEAL_INVALID "evidenceCids must contain non-empty strings"
  else if cidsDuplicated d.evidenceCids then
    err .E_DEAL_INVALID "evidenceCids contains duplicates"
  else if decide (d.status ≠ .INIT) && decide (d.buyer = none) then
    err .E_DEAL_INVALID "buyer must be set once deal leaves INIT"
  else if decide (d.status ≠ .INIT) && fundedMismatch d.fundedPriceUsd d.priceUsd then
    err .E_DEAL_INVALID "fundedPriceUsd must equal priceUsd (baseline policy)"
  else ok d

/-- `isWithinDisputeWindow`: window opens at the delivery deadline and
extends by `windowSecs * 1000` milliseconds; an unparseable deadline or
`now` is treated as outside the window. -/
def isWithinDisputeWindow (deliveryDeadline : JsTimestamp) (windowSecs : Int)
    (now : JsTimestamp) : Bool :=
  match deliveryDeadline, now with
  | some deadline, some n => decide (n ≤ deadline + windowSecs * 1000)
  | _, _ => false

/-- `applyStatus` from the seven-state `deal.ts`: pure transition reducer.
Validates structure, permits the idempotent no-op, consults the transition
table, then the two temporal guards, and finally returns the updated copy. -/
def applyStatus (deal : Deal) (next : DealStatus) (nowIso : JsTimestamp) :
    Result Deal DomainError :=
  match validateDeal deal with
  | .err e => .err e
  | .ok _ =>
    if deal.status = next then ok { deal with }
    else if !(allowedTransitions deal.status).contains next then
      err .E_TRANSITION_BLOCKED
        ("Transition " ++ statusStr deal.status ++ " → " ++ statusStr next ++ " not allowed")
    else if next = .DISPUTED &&
        !isWithinDisputeWindow deal.deliveryDeadline deal.disputeWindowSecs nowIso then
      err .E_TIME_WINDOW "Dispute window has expired"
    else if (next = .RELEASED || next = .REFUNDED) && deal.status = .DELIVERED &&
        !isWithinDisputeWindow deal.deliveryDeadline deal.disputeWindowSecs nowIso &&
        next ≠ .RELEASED then
      err .E_TIME_WINDOW
        ("Cannot " ++ jsToLower (statusStr next) ++ " after dispute window without resolution")
    else ok { deal with status := next }

/-! ## Five-state deal lifecycle (`src/deal.ts` + `src/types.ts`, shorter variant) -/

/-- `DealStatus` enum of `types.ts` (five-state variant). -/
inductive DealStatusV1 where
  | INITIATED
  | FUNDED
  | RELEASED
  | DISPUTED
  | REFUNDED
deriving DecidableEq, Repr

/-- Status name strings of the five-state enum. -/
def statusStrV1 : DealStatusV1 → String
  | .INITIATED => "INITIATED"
  | .FUNDED => "FUNDED"
  | .RELEASED => "RELEASED"
  | .DISPUTED => "DISPUTED"
  | .REFUNDED => "REFUNDED"

/-- `Amount` of `types.ts`: smallest-unit bigint value plus currency tag. -/
structure Amount where
  value : Int
  currency : String
deriving DecidableEq, Repr

/-- `Deal` of `types.ts` (five-state variant). -/
structure DealV1 where
  id : String
  buyer : String
  seller : String
  amount : Amount
  createdAt : Int
  status : DealStatusV1
deriving DecidableEq, Repr

/-- `DomainError` of `errors.ts`: string code plus message. -/
structure DomainErrorV1 where
  code : String
  message : String
deriving DecidableEq, Repr

/-- `TRANSITIONS` table of the five-state `deal.ts`. -/
def TRANSITIONS : DealStatusV1 → List DealStatusV1
  | .INITIATED => [.FUNDED]
  | .FUNDED => [.RELEASED, .DISPUTED]
  | .RELEASED => []
  | .DISPUTED => [.RELEASED, .REFUNDED]
  | .REFUNDED => []

/-- `isTransitionAllowed` of the five-state `deal.ts`. -/
def isTransitionAllowed (a b : DealStatusV1) : Bool :=
  decide (a = b) || (TRANSITIONS a).contains b

/-- `applyStatus` of the five-state `deal.ts`: pure updater that **throws**
`DomainError(ERR_ILLEGAL_TRANSITION)` when the transition is not allowed. -/
def applyStatusV1 (deal : DealV1) (next : DealStatusV1) :
    JsOutcome DomainErrorV1 DealV1 :=
  if !isTransitionAllowed deal.status next then
    .thrown ⟨"ERR_ILLEGAL_TRANSITION",
      "Illegal transition " ++ statusStrV1 deal.status ++ " -> " ++ statusStrV1 next⟩
  else .ret { deal with status := next }

/-! ## Fee calculator (`src/fees.ts`) -/

/-- `BPS_DIVISOR`: 1 basis point = 0.01%. -/
def BPS_DIVISOR : Int := 10000

/-- `FeeConfig` of `fees.ts`. -/
structure FeeConfig where
  baseRateBps : Int
  minFeeCents : Int
  maxFeeCents : Int
  affiliateShareBps : Int
deriving DecidableEq, Repr

/-- `PayoutDistribution` of `fees.ts`. -/
structure PayoutDistribution where
  totalEscrow : Int
  platformNet : Int
  affiliateReward : Int
  sellerReceivable : Int
deriving DecidableEq, Repr

/-- `calculatePayouts` of `fees.ts`: gross fee by basis points (bigint
division truncates toward zero, `Int.tdiv`), clamp to `[min, max]` (min
applied first, then max, as in the source), optional affiliate carve-out
from the fee, seller pays the fee from the gross amount. -/
def calculatePayouts (amountCents : Int) (config : FeeConfig)
    (hasAffiliate : Bool) : PayoutDistribution :=
  let fee0 := Int.tdiv (amountCents * config.baseRateBps) BPS_DIVISOR
  let fee1 := if fee0 < config.minFeeCents then config.minFeeCents else fee0
  let fee := if fee1 > config.maxFeeCents then config.maxFeeCents else fee1
  let affiliateReward :=
    if hasAffiliate then Int.tdiv (fee * config.affiliateShareBps) BPS_DIVISOR else 0
  { totalEscrow := amountCents
    platformNet := fee - affiliateReward
    affiliateReward := affiliateReward
    sellerReceivable := amountCents - fee }

/-! ## Three-way payout calculator (`computePayouts`) -/

/-- `DealResolutionKind` union. -/
inductive DealResolutionKind where
  | release_to_seller
  | refund_to_buyer
  | split
deriving DecidableEq, Repr

/-- `DealFunding`: escrowed amount in smallest units plus protocol fee bps. -/
structure DealFunding where
  amountTotal : Int
  protocolFeeBps : Int
deriving DecidableEq, Repr

/-- `DealResolutionInput`: resolution kind plus optional buyer share (bps),
relevant only for `split`. -/
structure DealResolutionInput where
  kind : DealResolutionKind
  buyerShareBps : Option Int
deriving DecidableEq, Repr

/-- `PayoutBreakdown`: the 3-way split. -/
structure PayoutBreakdown where
  buyerRefund : Int
  sellerPayout : Int
  protocolFee : Int
deriving DecidableEq, Repr

/-- A thrown `new Error(message)`. -/
structure JsError where
  message : String
deriving DecidableEq, Repr

/-- `computePayouts`: deterministic payout calculator.  **Throws** on a
negative amount or out-of-range basis points; otherwise extracts the fee
(`bigint` division, truncation) and splits the net by resolution kind,
with `buyerShareBps` defaulting to 5000. -/
def computePayouts (funding : DealFunding) (resolution : DealResolutionInput) :
    JsOutcome JsError PayoutBreakdown :=
  let amountTotal := funding.amountTotal
  let protocolFeeBps := funding.protocolFeeBps
  if amountTotal < 0 then
    .thrown ⟨"amountTotal must be non-negative"⟩
  else if protocolFeeBps < 0 ∨ protocolFeeBps > 10000 then
    .thrown ⟨"protocolFeeBps must be between 0 and 10_000"⟩
  else
    let fee := Int.tdiv (amountTotal * protocolFeeBps) 10000
    let net := amountTotal - fee
    match resolution.kind with
    | .release_to_seller => .ret ⟨0, net, fee⟩
    | .refund_to_buyer => .ret ⟨net, 0, fee⟩
    | .split =>
      let buyerShareBps := resolution.buyerShareBps.getD 5000
      if buyerShareBps < 0 ∨ buyerShareBps > 10000 then
        .thrown ⟨"buyerShareBps must be between 0 and 10_000"⟩
      else
        let buyerRefund := Int.tdiv (net * buyerShareBps) 10000
        .ret ⟨buyerRefund, net - buyerRefund, fee⟩

/-- Sum of the three parts of a returned `PayoutBreakdown`
(`none` when the call threw). -/
def breakdownSum (o : JsOutcome JsError PayoutBreakdown) : Option Int :=
  match o with
  | .ret b => some (b.buyerRefund + b.sellerPayout + b.protocolFee)
  | .thrown _ => none

/-! ## Concrete inputs used to instantiate the theorems -/

/-- A structurally valid deal (any status): ids non-empty, positive price,
funded price equal to price, parseable deadline, positive window. -/
def sampleDeal (st : DealStatus) : Deal :=
  { dealId := "deal-1", seller := "seller-1", buyer := some "buyer-1",
    priceUsd := 5000, fundedPriceUsd := some 5000,
    deliveryDeadline := some 1704880000000, disputeWindowSecs := 86400,
    status := st, evidenceCids := none }

/-- A `now` that parses and lies before `sampleDeal`'s window end. -/
def onTimeNow : JsTimestamp := some 1704880000000

/-- A `now` that parses and lies strictly after `sampleDeal`'s window end
(`deadline + windowSecs * 1000 + 1000`). -/
def lateNow : JsTimestamp := some (1704880000000 + 86400 * 1000 + 1000)

/-- A structurally invalid deal: empty `dealId`. -/
def invalidDeal : Deal :=
  { sampleDeal .FUNDED with dealId := "" }

/-- A five-state deal sitting in `INITIATED`. -/
def dealV1Ex : DealV1 :=
  { id := "deal-1", buyer := "buyer-1", seller := "seller-1",
    amount := { value := 1000, currency := "USDC" }, createdAt := 0,
    status := .INITIATED }

/-- The example fee configuration from `fees.ts`'s field comments:
1% base rate, $5.00 minimum, $1000.00 maximum, 20% affiliate share. -/
def cfgEx : FeeConfig :=
  { baseRateBps := 100, minFeeCents := 500, maxFeeCents := 100000,
    affiliateShareBps := 2000 }

/-! ## Helper lemmas -/

/-- A structurally valid deal is returned unchanged by `validateDeal`. -/
theorem validateDeal_ok_eq (d : Deal) (h : (validateDeal d).isOk = true) :
    validateDeal d = ok d := by
  revert h
  unfold validateDeal
  repeat' split
  all_goals intro h
  all_goals first | rfl | (simp [err, Result.isOk] at h)

/-! ## Claims -/

/-- Claim C1: for every structurally valid deal `d` and target status `next`,
given a `now` within the dispute window, `applyStatus d next now` succeeds
iff `next ∈ allowedTransitions d.status` or `next = d.status` (all 7×7
status pairs are covered by the case analysis). -/
theorem transition_closure (d : Deal) (next : DealStatus) (now : JsTimestamp)
    (hv : (validateDeal d).isOk = true)
    (hw : isWithinDisputeWindow d.deliveryDeadline d.disputeWindowSecs now = true) :
    (applyStatus d next now).isOk = true ↔
      (next ∈ allowedTransitions d.status ∨ next = d.status) := by
  have hd := validateDeal_ok_eq d hv
  obtain ⟨did, dsl, db, dp, df, ddl, dw, dst, dc⟩ := d
  cases dst <;> cases next <;>
    simp [applyStatus, hd, ok, err, allowedTransitions, Result.isOk, hw] at *

/-- Witness for C1 at a concrete valid deal: `FUNDED → DISPUTED` with an
in-window `now`. -/
theorem transition_closure_witness :
    (validateDeal (sampleDeal .FUNDED)).isOk = true ∧
    isWithinDisputeWindow (sampleDeal .FUNDED).deliveryDeadline
      (sampleDeal .FUNDED).disputeWindowSecs onTimeNow = true ∧
    ((applyStatus (sampleDeal .FUNDED) .DISPUTED onTimeNow).isOk = true ↔
      (DealStatus.DISPUTED ∈ allowedTransitions (sampleDeal .FUNDED).status ∨
        DealStatus.DISPUTED = (sampleDeal .FUNDED).status)) :=
  ⟨by decide, by decide,
    transition_closure (sampleDeal .FUNDED) .DISPUTED onTimeNow (by decide) (by decide)⟩

/-- Claim C2: for every non-negative `amountTotal`, every `protocolFeeBps`
in `[0, 10000]`, every resolution kind, and every `buyerShareBps` in
`[0, 10000]` (or absent, defaulting to 5000), `computePayouts` returns a
breakdown whose parts sum exactly to `amountTotal`. -/
theorem computePayouts_conservation (funding : DealFunding) (res : DealResolutionInput)
    (hamt : 0 ≤ funding.amountTotal)
    (hlo : 0 ≤ funding.protocolFeeBps) (hhi : funding.protocolFeeBps ≤ 10000)
    (hshare : ∀ s ∈ res.buyerShareBps, 0 ≤ s ∧ s ≤ 10000) :
    breakdownSum (computePayouts funding res) = some funding.amountTotal := by
  obtain ⟨amt, bps⟩ := funding
  obtain ⟨kind, share⟩ := res
  simp only [DealFunding.amountTotal] at hamt ⊢
  simp only [DealFunding.protocolFeeBps] at hlo hhi
  unfold computePayouts
  dsimp only
  rw [if_neg (show ¬ amt < 0 by omega),
      if_neg (show ¬ (bps < 0 ∨ bps > 10000) by omega)]
  cases kind
  case release_to_seller => simp [breakdownSum]
  case refund_to_buyer => simp [breakdownSum]
  case split =>
    rcases share with _ | v
    · rw [show (Option.none.getD 5000 : Int) = 5000 from rfl,
         if_neg (show ¬ ((5000:Int) < 0 ∨ (5000:Int) > 10000) by omega)]
      simp [breakdownSum]
    · obtain ⟨hv1, hv2⟩ := hshare v (by simp)
      rw [show ((some v).getD 5000 : Int) = v from rfl,
         if_neg (show ¬ (v < 0 ∨ v > 10000) by omega)]
      simp [breakdownSum]

/-- Witness for C2 at the spec's concrete scenario: `amount = 10000`,
`protocolFeeBps = 500`, `split` with `buyerShareBps = 3000`
(`2850 + 6650 + 500 = 10000`). -/
theorem computePayouts_conservation_witness :
    (0:Int) ≤ (10000:Int) ∧
    computePayouts ⟨10000, 500⟩ ⟨.split, some 3000⟩ = .ret ⟨2850, 6650, 500⟩ ∧
    breakdownSum (computePayouts ⟨10000, 500⟩ ⟨.split, some 3000⟩) = some 10000 :=
  ⟨by decide, by decide,
    computePayouts_conservation ⟨10000, 500⟩ ⟨.split, some 3000⟩
      (by decide) (by decide) (by decide) (by decide)⟩

/-- Counterexample to claim C3: in the code, `allowedTransitions RESOLVED`
is empty — `RELEASED` and `REFUNDED` are not in it — and `applyStatus` from
a valid deal in `RESOLVED` to `RELEASED` (or `REFUNDED`) *is* rejected as
transition-blocked. -/
theorem resolved_transitions_cex :
    DealStatus.RELEASED ∉ allowedTransitions .RESOLVED ∧
    DealStatus.REFUNDED ∉ allowedTransitions .RESOLVED ∧
    (applyStatus (sampleDeal .RESOLVED) .RELEASED onTimeNow).errCode =
      some .E_TRANSITION_BLOCKED ∧
    (applyStatus (sampleDeal .RESOLVED) .REFUNDED onTimeNow).errCode =
      some .E_TRANSITION_BLOCKED := by
  decide

/-- Claim C3 as amended: the transition table makes `RESOLVED` terminal
(`allowedTransitions RESOLVED = []`), so `applyStatus` from a valid deal in
`RESOLVED` to `RELEASED` or `REFUNDED` is rejected with a transition-blocked
error (execution of an arbiter decision lives outside the state machine). -/
theorem resolved_terminal (d : Deal) (next : DealStatus) (now : JsTimestamp)
    (hv : (validateDeal d).isOk = true) (hst : d.status = .RESOLVED)
    (hnx : next = .RELEASED ∨ next = .REFUNDED) :
    allowedTransitions .RESOLVED = [] ∧
    (applyStatus d next now).errCode = some .E_TRANSITION_BLOCKED := by
  have hd := validateDeal_ok_eq d hv
  rcases hnx with h | h <;> subst h <;>
    simp [applyStatus, hd, ok, err, allowedTransitions, hst, Result.errCode]

/-- Witness for C3's amended claim at a concrete valid deal in `RESOLVED`. -/
theorem resolved_terminal_witness :
    (validateDeal (sampleDeal .RESOLVED)).isOk = true ∧
    (sampleDeal .RESOLVED).status = .RESOLVED ∧
    (allowedTransitions .RESOLVED = [] ∧
      (applyStatus (sampleDeal .RESOLVED) .REFUNDED onTimeNow).errCode =
        some .E_TRANSITION_BLOCKED) :=
  ⟨by decide, by decide,
    resolved_terminal (sampleDeal .RESOLVED) .REFUNDED onTimeNow
      (by decide) (by decide) (Or.inr rfl)⟩

/-- Claim C4: the dispute-window boundary is inclusive.  For a structurally
valid deal in `FUNDED` or `DELIVERED` with deadline `T` (epoch ms) and
window `W` seconds, `applyStatus _ DISPUTED` succeeds at `now = T + W`
(seconds converted to milliseconds: `T + W * 1000`) and fails with a
`TIME_WINDOW` error one second later (`T + W * 1000 + 1000`). -/
theorem dispute_window_boundary (d : Deal) (deadline : Int)
    (hv : (validateDeal d).isOk = true)
    (hst : d.status = .FUNDED ∨ d.status = .DELIVERED)
    (hdl : d.deliveryDeadline = some deadline) :
    (applyStatus d .DISPUTED
      (some (deadline + d.disputeWindowSecs * 1000))).isOk = true ∧
    (applyStatus d .DISPUTED
      (some (deadline + d.disputeWindowSecs * 1000 + 1000))).errCode =
      some .E_TIME_WINDOW := by
  have hd := validateDeal_ok_eq d hv
  have hw1 : isWithinDisputeWindow d.deliveryDeadline d.disputeWindowSecs
      (some (deadline + d.disputeWindowSecs * 1000)) = true := by
    simp [isWithinDisputeWindow, hdl]
  have hw2 : isWithinDisputeWindow d.deliveryDeadline d.disputeWindowSecs
      (some (deadline + d.disputeWindowSecs * 1000 + 1000)) = false := by
    simp [isWithinDisputeWindow, hdl]
  rcases hst with h | h <;>
    simp [applyStatus, hd, ok, err, h, allowedTransitions, hw1, hw2,
      Result.isOk, Result.errCode]

/-- Witness for C4 at a concrete valid deal in `FUNDED`. -/
theorem dispute_window_boundary_witness :
    (validateDeal (sampleDeal .FUNDED)).isOk = true ∧
    (sampleDeal .FUNDED).deliveryDeadline = some 1704880000000 ∧
    ((applyStatus (sampleDeal .FUNDED) .DISPUTED
        (some (1704880000000 + (sampleDeal .FUNDED).disputeWindowSecs * 1000))).isOk = true ∧
      (applyStatus (sampleDeal .FUNDED) .DISPUTED
        (some (1704880000000 + (sampleDeal .FUNDED).disputeWindowSecs * 1000 + 1000))).errCode =
        some .E_TIME_WINDOW) :=
  ⟨by decide, by decide,
    dispute_window_boundary (sampleDeal .FUNDED) 1704880000000
      (by decide) (Or.inl rfl) (by decide)⟩

/-- Counterexample to claim C5: for a valid deal in `DELIVERED` after the
dispute window has closed, `applyStatus _ REFUNDED _` does *not* fail with a
time-window error — it fails with a transition-blocked error, because
`REFUNDED` is not in `allowedTransitions DELIVERED` at all. -/
theorem late_refund_errcode_cex :
    isWithinDisputeWindow (sampleDeal .DELIVERED).deliveryDeadline
      (sampleDeal .DELIVERED).disputeWindowSecs lateNow = false ∧
    (applyStatus (sampleDeal .DELIVERED) .REFUNDED lateNow).errCode ≠
      some .E_TIME_WINDOW ∧
    (applyStatus (sampleDeal .DELIVERED) .REFUNDED lateNow).errCode =
      some .E_TRANSITION_BLOCKED := by
  decide

/-- Claim C5 as amended: for every structurally valid deal in `DELIVERED`
whose dispute window has closed, `applyStatus _ REFUNDED _` fails with a
*transition-blocked* error (`REFUNDED` is unreachable from `DELIVERED`, so
the late-refund time-window guard is dead code), while
`applyStatus _ RELEASED _` succeeds. -/
theorem late_delivered_asymmetry (d : Deal) (now : JsTimestamp)
    (hv : (validateDeal d).isOk = true) (hst : d.status = .DELIVERED)
    (hlate : isWithinDisputeWindow d.deliveryDeadline d.disputeWindowSecs now = false) :
    (applyStatus d .REFUNDED now).errCode = some .E_TRANSITION_BLOCKED ∧
    (applyStatus d .RELEASED now).isOk = true := by
  have hd := validateDeal_ok_eq d hv
  simp [applyStatus, hd, ok, err, hst, allowedTransitions, hlate,
    Result.isOk, Result.errCode]

/-- Witness for C5's amended claim at a concrete valid deal in `DELIVERED`
with a `now` one second past the window end. -/
theorem late_delivered_asymmetry_witness :
    (validateDeal (sampleDeal .DELIVERED)).isOk = true ∧
    isWithinDisputeWindow (sampleDeal .DELIVERED).deliveryDeadline
      (sampleDeal .DELIVERED).disputeWindowSecs lateNow = false ∧
    ((applyStatus (sampleDeal .DELIVERED) .REFUNDED lateNow).errCode =
        some .E_TRANSITION_BLOCKED ∧
      (applyStatus (sampleDeal .DELIVERED) .RELEASED lateNow).isOk = true) :=
  ⟨by decide, by decide,
    late_delivered_asymmetry (sampleDeal .DELIVERED) lateNow
      (by decide) (by decide) (by decide)⟩

/-- Claim C6: for every `amountCents`, every `FeeConfig`, and both values of
`hasAffiliate`, `calculatePayouts` conserves value exactly:
`platformNet + affiliateReward + sellerReceivable = amountCents` (the
affiliate reward is carved out of the fee, so clamping cannot break it). -/
theorem calculatePayouts_conservation (amountCents : Int) (config : FeeConfig)
    (hasAffiliate : Bool) :
    (calculatePayouts amountCents config hasAffiliate).platformNet +
      (calculatePayouts amountCents config hasAffiliate).affiliateReward +
      (calculatePayouts amountCents config hasAffiliate).sellerReceivable =
      amountCents := by
  cases hasAffiliate <;> simp [calculatePayouts]

/-- Counterexample to claim C7: `applyStatus` validates the deal before the
idempotent no-op, so a self-transition on a structurally *invalid* deal
(empty `dealId`) does not succeed. -/
theorem self_transition_cex :
    (applyStatus invalidDeal invalidDeal.status onTimeNow).isOk = false := by
  decide

/-- Claim C7 as amended: for every *structurally valid* deal and every
`now`, `applyStatus deal deal.status now` succeeds and returns a deal equal
to the input in every field. -/
theorem self_transition_id (d : Deal) (now : JsTimestamp)
    (hv : (validateDeal d).isOk = true) :
    applyStatus d d.status now = .ok d := by
  have hd := validateDeal_ok_eq d hv
  simp [applyStatus, hd, ok]

/-- Witness for C7's amended claim at a concrete valid deal. -/
theorem self_transition_id_witness :
    (validateDeal (sampleDeal .DISPUTED)).isOk = true ∧
    applyStatus (sampleDeal .DISPUTED) (sampleDeal .DISPUTED).status onTimeNow =
      .ok (sampleDeal .DISPUTED) :=
  ⟨by decide, self_transition_id (sampleDeal .DISPUTED) onTimeNow (by decide)⟩

/-- Counterexample to claim C8: not every public function reports failure as
a returned value.  `computePayouts` on a negative `amountTotal` throws
(`thrown` embeds an uncaught JS exception), and the five-state
`applyStatus` throws on an illegal transition. -/
theorem no_throw_policy_cex :
    computePayouts ⟨-1, 0⟩ ⟨.release_to_seller, none⟩ =
      .thrown ⟨"amountTotal must be non-negative"⟩ ∧
    applyStatusV1 dealV1Ex .REFUNDED =
      .thrown ⟨"ERR_ILLEGAL_TRANSITION", "Illegal transition INITIATED -> REFUNDED"⟩ := by
  decide

/-- Claim C8 as amended: the seven-state `applyStatus` reports an illegal
transition as a returned `E_TRANSITION_BLOCKED` error value, but
`computePayouts` throws an exception on a negative `amountTotal`, and the
five-state `applyStatus` throws on an illegal transition, rather than
returning failure values. -/
theorem result_vs_throw (d : Deal) (next : DealStatus) (now : JsTimestamp)
    (funding : DealFunding) (res : DealResolutionInput) (v1 : DealV1) (n1 : DealStatusV1)
    (hv : (validateDeal d).isOk = true)
    (hno : next ∉ allowedTransitions d.status) (hne : next ≠ d.status)
    (hneg : funding.amountTotal < 0)
    (hno1 : isTransitionAllowed v1.status n1 = false) :
    (applyStatus d next now).errCode = some .E_TRANSITION_BLOCKED ∧
    computePayouts funding res = .thrown ⟨"amountTotal must be non-negative"⟩ ∧
    applyStatusV1 v1 n1 = .thrown ⟨"ERR_ILLEGAL_TRANSITION",
      "Illegal transition " ++ statusStrV1 v1.status ++ " -> " ++ statusStrV1 n1⟩ := by
  have hd := validateDeal_ok_eq d hv
  have hne2 : ¬ d.status = next := fun h => hne h.symm
  refine ⟨?_, ?_, ?_⟩
  · simp [applyStatus, hd, ok, err, hne2, hno, Result.errCode]
  · obtain ⟨amt, bps⟩ := funding
    simp only [DealFunding.amountTotal] at hneg
    simp [computePayouts, if_pos, hneg]
  · simp [applyStatusV1, hno1]

/-- Witness for C8's amended claim at concrete inputs. -/
theorem result_vs_throw_witness :
    (validateDeal (sampleDeal .FUNDED)).isOk = true ∧
    DealStatus.REFUNDED ∉ allowedTransitions (sampleDeal .FUNDED).status ∧
    DealStatus.REFUNDED ≠ (sampleDeal .FUNDED).status ∧
    ((-1:Int) < 0) ∧
    isTransitionAllowed dealV1Ex.status .REFUNDED = false ∧
    ((applyStatus (sampleDeal .FUNDED) .REFUNDED onTimeNow).errCode =
        some .E_TRANSITION_BLOCKED ∧
      computePayouts ⟨-1, 0⟩ ⟨.release_to_seller, none⟩ =
        .thrown ⟨"amountTotal must be non-negative"⟩ ∧
      applyStatusV1 dealV1Ex .REFUNDED = .thrown ⟨"ERR_ILLEGAL_TRANSITION",
        "Illegal transition " ++ statusStrV1 dealV1Ex.status ++ " -> " ++ statusStrV1 .REFUNDED⟩) :=
  ⟨by decide, by decide, by decide, by decide, by decide,
    result_vs_throw (sampleDeal .FUNDED) .REFUNDED onTimeNow ⟨-1, 0⟩
      ⟨.release_to_seller, none⟩ dealV1Ex .REFUNDED
      (by decide) (by decide) (by decide) (by decide) (by decide)⟩

/-- Claim C9: `calculatePayouts` enforces no lower bound on the seller's
share.  At `amountCents = 100` (non-negative and below the `$5.00` minimum
fee of the example config) with no affiliate, the min-fee clamp raises the
fee to 500 above the escrowed amount and `sellerReceivable = -400 < 0`. -/
theorem seller_receivable_negative :
    (0:Int) ≤ 100 ∧ (100:Int) < cfgEx.minFeeCents ∧
    calculatePayouts 100 cfgEx false =
      { totalEscrow := 100, platformNet := 500, affiliateReward := 0,
        sellerReceivable := -400 } ∧
    (calculatePayouts 100 cfgEx false).sellerReceivable < 0 := by
  decide

/-- Claim C10: for every structurally valid deal in `FUNDED` or `DELIVERED`,
an unparseable `nowIso` (`Date.parse` yields `NaN`, embedded as `none`)
makes `applyStatus _ DISPUTED _` fail with the time-window error
`E_TIME_WINDOW` / "Dispute window has expired", not a validation error,
because `isWithinDisputeWindow` treats an unparseable `now` as outside the
window. -/
theorem unparseable_now_time_window (d : Deal)
    (hv : (validateDeal d).isOk = true)
    (hst : d.status = .FUNDED ∨ d.status = .DELIVERED) :
    applyStatus d .DISPUTED none =
      .err ⟨.E_TIME_WINDOW, "Dispute window has expired"⟩ := by
  have hd := validateDeal_ok_eq d hv
  have hw : isWithinDisputeWindow d.deliveryDeadline d.disputeWindowSecs none = false := by
    cases d.deliveryDeadline <;> simp [isWithinDisputeWindow]
  rcases hst with h | h <;>
    simp [applyStatus, hd, ok, err, h, allowedTransitions, hw]

/-- Witness for C10 at a concrete valid deal in `FUNDED`. -/
theorem unparseable_now_time_window_witness :
    (validateDeal (sampleDeal .FUNDED)).isOk = true ∧
    applyStatus (sampleDeal .FUNDED) .DISPUTED none =
      .err ⟨.E_TIME_WINDOW, "Dispute window has expired"⟩ :=
  ⟨by decide, unparseable_now_time_window (sampleDeal .FUNDED) (by decide) (Or.inl rfl)⟩

end ArthaCore
